import Mathlib

/-!
Verification of the sol-proposer bridge service (`src/main.rs`) against its
natural-language specification.

The Rust program is shallowly embedded: bytes are `Nat` (each byte a value
below 256), byte buffers are `List Nat`, machine `u64` values are `Nat` used
with explicit `% 2 ^ 64` where overflow matters, fallible Rust operations
return `Except String` values, and the external world (RPC clients, wallet
file, config parsing, the base58 parser and the program-derived-address
algorithm of the Solana SDK) is an oracle environment whose per-call results
are threaded explicitly.  Rust panics (out-of-bounds slicing, `unwrap` on
`None`) are a distinct outcome constructor, since a panic aborts the process
rather than returning an error value.
-/

namespace SolProposer

/-- A Solana public key: 32 raw bytes. -/
structure Pubkey where
  bytes : List Nat
deriving DecidableEq, Repr

/-- A wallet keypair; only its public key is observable in the embedding
(the signature itself is opaque). -/
structure Keypair where
  pub : Pubkey
deriving DecidableEq, Repr

/-- `solana_sdk::instruction::AccountMeta`. -/
structure AccountMeta where
  pubkey : Pubkey
  is_signer : Bool
  is_writable : Bool
deriving DecidableEq, Repr

/-- `AccountMeta::new(pubkey, is_signer)`: writable account. -/
def AccountMeta.new (p : Pubkey) (s : Bool) : AccountMeta :=
  ⟨p, s, true⟩

/-- `AccountMeta::new_readonly(pubkey, is_signer)`: read-only account. -/
def AccountMeta.new_readonly (p : Pubkey) (s : Bool) : AccountMeta :=
  ⟨p, s, false⟩

/-- `solana_sdk::instruction::Instruction` as built by
`Instruction::new_with_bytes(program_id, data, accounts)`. -/
structure Instruction where
  program_id : Pubkey
  accounts : List AccountMeta
  data : List Nat
deriving DecidableEq, Repr

/-- The observable content of a transaction built by
`Transaction::new_signed_with_payer(instructions, payer, signers, blockhash)`:
its instructions, fee payer, the set of signing keys, and the recent
blockhash (opaque, modelled as a `Nat`). -/
structure Transaction where
  instructions : List Instruction
  payer : Option Pubkey
  signers : List Pubkey
  recent_blockhash : Nat
deriving DecidableEq, Repr

/-- `solana_program::system_program::id()`: the all-zero public key. -/
def system_program_id : Pubkey :=
  ⟨List.replicate 32 0⟩

/-- Result of a Rust slicing expression: either the slice, or a panic
(index out of bounds), which aborts the process. -/
inductive SliceResult (α : Type) where
  | ok (a : α)
  | panicked
deriving DecidableEq, Repr

/-- Rust `&l[lo..hi]` on a byte vector: panics unless `lo ≤ hi ≤ l.length`,
otherwise yields the bytes at offsets `[lo, hi)`. -/
def sliceRange (l : List Nat) (lo hi : Nat) : SliceResult (List Nat) :=
  if lo ≤ hi ∧ hi ≤ l.length then .ok ((l.drop lo).take (hi - lo))
  else .panicked

/-- The payload-extraction step of `check_and_submit` (main.rs lines
100-105): `mt_root.copy_from_slice(&account_data[8..40])` followed by
`ws_root = [0u8; 32]`.  The slice expression panics when the account data
is shorter than 40 bytes; `copy_from_slice` itself cannot add a panic here
because both sides have length 32 whenever the slice succeeds. -/
def extract (account_data : List Nat) : SliceResult (List Nat × List Nat) :=
  match sliceRange account_data 8 40 with
  | .ok mt_root => .ok (mt_root, List.replicate 32 0)
  | .panicked => .panicked

/-- Rust `u64::to_le_bytes`: the 8 little-endian bytes of a slot value. -/
def toLeBytes (n : Nat) : List Nat :=
  (List.range 8).map (fun i => n / 256 ^ i % 256)

/-- Little-endian decoding of a byte list (for stating that the serialized
slot bytes really encode the slot). -/
def fromLeBytes (l : List Nat) : Nat :=
  l.foldr (fun b acc => b + 256 * acc) 0

/-- The fixed 8-byte instruction discriminator (main.rs line 121). -/
def instructionDiscriminator : List Nat :=
  [249, 209, 47, 60, 18, 3, 81, 219]

/-- The instruction-data construction of `check_and_submit` (main.rs lines
120-124): discriminator, then the slot in little-endian, then the merkle
tree root, then the world state root. -/
def buildInstructionData (slot : Nat) (mt_root ws_root : List Nat) : List Nat :=
  instructionDiscriminator ++ toLeBytes slot ++ mt_root ++ ws_root

/-- The bytes of the literal seed tag `b"roots"` (main.rs line 116). -/
def rootsSeed : List Nat :=
  [114, 111, 111, 116, 115]

/-- Modelled from the spec: `Pubkey::find_program_address` of the Solana
SDK is external library code, "the destination chain's standard
deterministic-address-from-seeds algorithm".  It is modelled as an
arbitrary function from the seed list and the owner program to an address
and a bump byte; the development is parametric in it. -/
def PdaFn : Type :=
  List (List Nat) → Pubkey → Pubkey × Nat

/-- The address-derivation step of `check_and_submit` (main.rs lines
116-117): `Pubkey::find_program_address(&[b"roots", &slot.to_le_bytes()],
&program_id).0`. -/
def derive (pda : PdaFn) (slot : Nat) (program_id : Pubkey) : Pubkey :=
  (pda [rootsSeed, toLeBytes slot] program_id).1

/-- Per-cycle oracle environment: the results the external collaborators
(wallet file, base58 parses of the configured addresses, the two RPC
clients) return to this cycle's calls, in the order `check_and_submit`
makes them.  `accountResult` models `get_account_with_commitment`: a
transport error, or a response carrying an optional account's data bytes
together with the context slot of the same atomic read. -/
structure CycleEnv where
  read_keypair : Except String Keypair
  leafChunkParse : Except String Pubkey
  accountResult : Except String (Option (List Nat) × Nat)
  programIdParse : Except String Pubkey
  slotsAccountParse : Except String Pubkey
  blockhashResult : Except String Nat
  sendResult : Transaction → Except String String

/-- `load_wallet` (main.rs lines 62-68): tilde-expands the configured path,
reads the keypair file, and maps a read failure to the message
`Failed to read wallet file: <e>`.  Path expansion and file reading are
external; their combined result is the oracle `env.read_keypair`. -/
def load_wallet (env : CycleEnv) : Except String Keypair :=
  match env.read_keypair with
  | .error e => .error ("Failed to read wallet file: " ++ e)
  | .ok keypair => .ok keypair

/-- Outcome of one cycle body: a normal return, an error value propagated
with `?`, or a Rust panic (which aborts the whole process). -/
inductive CycleOutcome (α : Type) where
  | ok (a : α)
  | err (e : String)
  | panicked
deriving DecidableEq, Repr

/-- The part of `check_and_submit` (main.rs lines 71-146) that runs before
the transaction is sent: load the wallet, parse the leaf-chunk address,
fetch the account with its context slot, fail with `Account not found` on a
missing account, slice the merkle root out of the data (panicking on short
data), parse the program id and the slots account, derive the
program-derived address, build the instruction data and the instruction
with its four account metas, fetch the latest blockhash, and sign the
transaction with the wallet as payer and sole signer. -/
def builtTransaction (pda : PdaFn) (env : CycleEnv) : CycleOutcome Transaction :=
  match load_wallet env with
  | .error e => .err e
  | .ok wallet =>
  match env.leafChunkParse with
  | .error e => .err e
  | .ok _leaf_chunk_pubkey =>
  match env.accountResult with
  | .error e => .err e
  | .ok (value, account_slot) =>
  match value with
  | none => .err "Account not found"
  | some account_data =>
  match extract account_data with
  | .panicked => .panicked
  | .ok (mt_root, ws_root) =>
  match env.programIdParse with
  | .error e => .err e
  | .ok l1_program_id =>
  match env.slotsAccountParse with
  | .error e => .err e
  | .ok slots_account =>
  let slot_roots_account := derive pda account_slot l1_program_id
  let instruction_data := buildInstructionData account_slot mt_root ws_root
  let instruction : Instruction :=
    ⟨l1_program_id,
     [AccountMeta.new slots_account false,
      AccountMeta.new_readonly system_program_id false,
      AccountMeta.new slot_roots_account false,
      AccountMeta.new wallet.pub true],
     instruction_data⟩
  match env.blockhashResult with
  | .error e => .err e
  | .ok recent_blockhash =>
  .ok ⟨[instruction], some wallet.pub, [wallet.pub], recent_blockhash⟩

/-- `check_and_submit` (main.rs lines 71-148): build and sign the
transaction, then `send_and_confirm_transaction` it, returning unit on
confirmation. -/
def check_and_submit (pda : PdaFn) (env : CycleEnv) : CycleOutcome Unit :=
  match builtTransaction pda env with
  | .panicked => .panicked
  | .err e => .err e
  | .ok transaction =>
    match env.sendResult transaction with
    | .error e => .err e
    | .ok _signature => .ok ()

/-- The configuration record, as far as the control flow depends on it. -/
structure Config where
  check_interval_secs : Nat
deriving DecidableEq, Repr

/-- Observable state of the process: still running (with the error lines
logged so far), crashed by a panic (the panic propagates out of the tokio
main task and aborts the process), or exited at startup with a non-zero
outcome because `main` returned an error. -/
inductive ProcessOutcome where
  | running (log : List String)
  | crashed (log : List String)
  | startupExit (e : String)
deriving DecidableEq, Repr

/-- The scheduler loop of `main` (main.rs lines 181-187), run for `fuel`
ticks: each tick awaits the interval, runs the cycle body, logs
`Error: <e>` on an error outcome and continues; a panic aborts the
process.  `cycle i` is the outcome of the cycle body at tick `i`.  The
loop itself has no exit path: exhausting the fuel always leaves the
process running. -/
def mainLoop (cycle : Nat → CycleOutcome Unit) :
    Nat → Nat → List String → ProcessOutcome
  | 0, _, log => .running log
  | fuel + 1, i, log =>
    match cycle i with
    | .ok _ => mainLoop cycle fuel (i + 1) log
    | .err e => mainLoop cycle fuel (i + 1) (log ++ ["Error: " ++ e])
    | .panicked => .crashed log

/-- `main` (main.rs lines 176-187): `load_config()?` aborts the process
with a non-zero outcome on a configuration error, before the interval
timer and the loop exist; otherwise the scheduler loop runs. -/
def mainRun (configResult : Except String Config)
    (cycle : Nat → CycleOutcome Unit) (fuel : Nat) : ProcessOutcome :=
  match configResult with
  | .error e => .startupExit e
  | .ok _config => mainLoop cycle fuel 0 []

/-- Outcome of `with_retry`: a success, the last observed error, or the
panic of `last_error.unwrap()` when the loop exits with `last_error`
still `None`. -/
inductive RetryOutcome (α : Type) where
  | ok (a : α)
  | err (e : String)
  | panickedUnwrap
deriving DecidableEq, Repr

/-- Whether a retry outcome is the unwrap panic. -/
def RetryOutcome.isPanic {α : Type} : RetryOutcome α → Bool
  | .panickedUnwrap => true
  | _ => false

/-- The `while retries > 0` loop of `with_retry` (main.rs lines 158-172).
`f i` is the result of the `i`-th invocation of the operation (0-based).
Returns the outcome together with the total number of attempts made and
the total number of 1-second sleeps performed; the Rust code sleeps once
inside every `Err` arm, after decrementing `retries`. -/
def with_retryLoop {α : Type} (f : Nat → Except String α) :
    Nat → Nat → Option String → Nat → RetryOutcome α × Nat × Nat
  | 0, i, last_error, sleeps =>
    (match last_error with
     | some e => .err e
     | none => .panickedUnwrap, i, sleeps)
  | retries + 1, i, _last_error, sleeps =>
    match f i with
    | .ok result => (.ok result, i + 1, sleeps)
    | .error e => with_retryLoop f retries (i + 1) (some e) (sleeps + 1)

/-- `with_retry` (main.rs lines 152-173): 3 retries, no error yet, no
attempts made, no sleeps performed. -/
def with_retry {α : Type} (f : Nat → Except String α) :
    RetryOutcome α × Nat × Nat :=
  with_retryLoop f 3 0 none 0

/-- A concrete instance of the abstract program-derived-address function,
used only by concrete witnesses: it depends on every seed byte and on the
owner program. -/
def samplePda : PdaFn :=
  fun seeds program_id =>
    (⟨seeds.foldl (fun acc s => acc ++ s) [] ++ program_id.bytes⟩, 255)

/-- A concrete wallet keypair for witnesses. -/
def sampleWallet : Keypair :=
  ⟨⟨List.replicate 32 7⟩⟩

/-- A concrete 40-byte account buffer: an 8-byte header of zeros followed
by a root of 32 ones. -/
def sampleData : List Nat :=
  List.replicate 8 0 ++ List.replicate 32 1

/-- An environment whose account read returns only 39 bytes. -/
def envShortData : CycleEnv :=
  ⟨.ok sampleWallet, .ok ⟨List.replicate 32 4⟩,
   .ok (some (List.replicate 39 0), 100),
   .ok ⟨List.replicate 32 2⟩, .ok ⟨List.replicate 32 3⟩, .ok 5,
   fun _ => .ok "sig"⟩

/-- An environment whose wallet file is unreadable. -/
def envBadWallet : CycleEnv :=
  ⟨.error "bad", .ok ⟨List.replicate 32 4⟩, .ok (some sampleData, 100),
   .ok ⟨List.replicate 32 2⟩, .ok ⟨List.replicate 32 3⟩, .ok 5,
   fun _ => .ok "sig"⟩

/-- An environment in which every external call succeeds. -/
def envOk : CycleEnv :=
  ⟨.ok sampleWallet, .ok ⟨List.replicate 32 4⟩, .ok (some sampleData, 100),
   .ok ⟨List.replicate 32 2⟩, .ok ⟨List.replicate 32 3⟩, .ok 5,
   fun _ => .ok "sig"⟩

/-- A second all-success environment: same observed slot and program id as
`envOk`, but a different wallet, different account bytes beyond offset 40,
a different slots account, a different blockhash and a failing send. -/
def envOk2 : CycleEnv :=
  ⟨.ok ⟨⟨List.replicate 32 8⟩⟩, .ok ⟨List.replicate 32 4⟩,
   .ok (some (sampleData ++ [9, 9]), 100),
   .ok ⟨List.replicate 32 2⟩, .ok ⟨List.replicate 32 6⟩, .ok 6,
   fun _ => .error "transport"⟩

/-- On a buffer of at least 40 bytes the extraction step succeeds with the
bytes at offsets `[8, 40)` and the all-zero placeholder. -/
theorem extract_eq_of_length_ge (l : List Nat) (h : 40 ≤ l.length) :
    extract l = .ok ((l.drop 8).take 32, List.replicate 32 0) := by
  simp [extract, sliceRange, h]

/-- A scheduler loop whose cycle body always returns the same error value
stays running and logs one `Error:` line per tick. -/
theorem mainLoop_const_err (m : String) (fuel : Nat) :
    ∀ (i : Nat) (log : List String),
      mainLoop (fun _ => CycleOutcome.err m) fuel i log =
        ProcessOutcome.running (log ++ List.replicate fuel ("Error: " ++ m)) := by
  induction fuel with
  | zero => intro i log; simp [mainLoop]
  | succ n ih => intro i log; simp [mainLoop, ih, List.replicate_succ]

/-- C1: on a raw account buffer shorter than 40 bytes the extraction step
does not fail with a `MalformedAccountData` error value: the slice
expression `account_data[8..40]` panics, so the cycle aborts the process
instead of returning any error.  Evaluated at the concrete failing input of
39 zero bytes, both for `extract` alone and for the whole cycle body. -/
theorem extract_short_buffer_panics :
    extract (List.replicate 39 0) = SliceResult.panicked ∧
    check_and_submit samplePda envShortData = CycleOutcome.panicked ∧
    ((∃ e, check_and_submit samplePda envShortData = CycleOutcome.err e) →
      False) := by
  refine ⟨by decide, by decide, ?_⟩
  rintro ⟨e, he⟩
  have h : (CycleOutcome.panicked : CycleOutcome Unit) = CycleOutcome.err e := by
    rw [← he]; decide
  exact CycleOutcome.noConfusion h

/-- C2: not every per-cycle failure is swallowed by the scheduler loop:
when the account read returns a 39-byte buffer the cycle body panics
rather than returning an error value, and the loop aborts the process
instead of logging and proceeding to the next tick.  Evaluated at that
concrete failing input. -/
theorem short_data_cycle_aborts_loop :
    check_and_submit samplePda envShortData = CycleOutcome.panicked ∧
    mainRun (Except.ok ⟨60⟩) (fun _ => check_and_submit samplePda envShortData)
      3 = ProcessOutcome.crashed [] := by
  constructor <;> decide

/-- C3 counterexample: with an unreadable wallet file the process does not
terminate at startup: the wallet is loaded inside the cycle body, so the
cycle returns an error value, the loop logs it, and after two full ticks
the process is still running with two logged error lines. -/
theorem bad_wallet_not_startup_fatal :
    check_and_submit samplePda envBadWallet =
      CycleOutcome.err "Failed to read wallet file: bad" ∧
    mainRun (Except.ok ⟨60⟩) (fun _ => check_and_submit samplePda envBadWallet)
      2 = ProcessOutcome.running
        ["Error: Failed to read wallet file: bad",
         "Error: Failed to read wallet file: bad"] := by
  constructor <;> decide

/-- C3 (amended): a malformed configuration is a fatal startup error: main
exits with a non-zero outcome before the scheduler starts.  An unreadable
or malformed wallet file, however, is a per-cycle error: the wallet is
loaded inside every cycle, the cycle fails with
`Failed to read wallet file: <e>`, the scheduler logs the error and keeps
ticking, and the process never terminates because of it. -/
theorem bad_wallet_is_per_cycle_error (e ce : String) (cfg : Config)
    (pda : PdaFn) (env : CycleEnv) (fuel : Nat)
    (h : env.read_keypair = .error e) :
    mainRun (Except.error ce) (fun _ => check_and_submit pda env) fuel =
      ProcessOutcome.startupExit ce ∧
    check_and_submit pda env =
      CycleOutcome.err ("Failed to read wallet file: " ++ e) ∧
    mainRun (Except.ok cfg) (fun _ => check_and_submit pda env) fuel =
      ProcessOutcome.running
        (List.replicate fuel ("Error: " ++ ("Failed to read wallet file: " ++ e))) := by
  have hc : check_and_submit pda env =
      CycleOutcome.err ("Failed to read wallet file: " ++ e) := by
    simp [check_and_submit, builtTransaction, load_wallet, h]
  refine ⟨rfl, hc, ?_⟩
  simp only [mainRun, hc, mainLoop_const_err]
  simp

/-- C3 witness: the amended statement at the concrete bad-wallet
environment, a config error string, 3 ticks of fuel. -/
theorem bad_wallet_is_per_cycle_error_witness :
    mainRun (Except.error "missing field")
        (fun _ => check_and_submit samplePda envBadWallet) 3 =
      ProcessOutcome.startupExit "missing field" ∧
    check_and_submit samplePda envBadWallet =
      CycleOutcome.err ("Failed to read wallet file: " ++ "bad") ∧
    mainRun (Except.ok ⟨60⟩)
        (fun _ => check_and_submit samplePda envBadWallet) 3 =
      ProcessOutcome.running
        (List.replicate 3
          ("Error: " ++ ("Failed to read wallet file: " ++ "bad"))) :=
  bad_wallet_is_per_cycle_error "bad" "missing field" ⟨60⟩ samplePda
    envBadWallet 3 rfl

/-- C4: on any buffer of at least 40 bytes, extraction returns the 32 bytes
at offsets `[8, 40)` as the tree root and 32 zero bytes as the state root,
and the result depends only on the first 40 bytes: any second buffer that
agrees on them extracts identically. -/
theorem extract_long_buffer (raw raw' : List Nat) (h : 40 ≤ raw.length)
    (hagree : raw.take 40 = raw'.take 40) :
    extract raw = SliceResult.ok ((raw.drop 8).take 32, List.replicate 32 0) ∧
    extract raw' = extract raw := by
  have hlen : 40 ≤ raw'.length := by
    have hl := congrArg List.length hagree
    simp only [List.length_take] at hl
    omega
  have hdrop : (raw'.drop 8).take 32 = (raw.drop 8).take 32 := by
    have hd := congrArg (List.drop 8) hagree
    rw [List.drop_take, List.drop_take] at hd
    norm_num at hd
    exact hd.symm
  rw [extract_eq_of_length_ge raw h, extract_eq_of_length_ge raw' hlen, hdrop]
  exact ⟨rfl, rfl⟩

/-- A 41-byte buffer for the C4 witness. -/
def sampleRaw : List Nat :=
  sampleData ++ [5]

/-- A 42-byte buffer agreeing with `sampleRaw` on the first 40 bytes. -/
def sampleRaw2 : List Nat :=
  sampleData ++ [9, 9]

/-- C4 witness: the statement at two concrete buffers that agree on their
first 40 bytes and differ beyond offset 40. -/
theorem extract_long_buffer_witness :
    extract sampleRaw =
      SliceResult.ok ((sampleRaw.drop 8).take 32, List.replicate 32 0) ∧
    extract sampleRaw2 = extract sampleRaw :=
  extract_long_buffer sampleRaw sampleRaw2 (by decide) (by decide)

/-- The little-endian serialization of a slot is always 8 bytes. -/
theorem toLeBytes_length (n : Nat) : (toLeBytes n).length = 8 := by
  simp [toLeBytes]

/-- The discriminator constant is 8 bytes. -/
theorem instructionDiscriminator_length :
    instructionDiscriminator.length = 8 := rfl

/-- Below `2 ^ 64` the 8 little-endian bytes decode back to the slot. -/
theorem fromLeBytes_toLeBytes (n : Nat) (h : n < 2 ^ 64) :
    fromLeBytes (toLeBytes n) = n := by
  have hr : List.range 8 = [0, 1, 2, 3, 4, 5, 6, 7] := rfl
  simp only [toLeBytes, fromLeBytes, hr, List.map_cons, List.map_nil,
    List.foldr_cons, List.foldr_nil]
  norm_num
  omega

/-- C5: for every slot below `2 ^ 64` and 32-byte roots, the built
instruction data is exactly 80 bytes laid out as the fixed discriminator
`[249, 209, 47, 60, 18, 3, 81, 219]` at `[0, 8)`, the slot little-endian at
`[8, 16)` (those bytes decode back to the slot), the tree root at
`[16, 48)` and the state root at `[48, 80)`; the construction is a total
function, so it cannot fail. -/
theorem buildInstructionData_layout (slot : Nat) (mt ws : List Nat)
    (hmt : mt.length = 32) (hws : ws.length = 32) (hslot : slot < 2 ^ 64) :
    (buildInstructionData slot mt ws).length = 80 ∧
    (buildInstructionData slot mt ws).take 8 = instructionDiscriminator ∧
    ((buildInstructionData slot mt ws).drop 8).take 8 = toLeBytes slot ∧
    fromLeBytes (((buildInstructionData slot mt ws).drop 8).take 8) = slot ∧
    ((buildInstructionData slot mt ws).drop 16).take 32 = mt ∧
    (buildInstructionData slot mt ws).drop 48 = ws := by
  have hassoc : buildInstructionData slot mt ws =
      instructionDiscriminator ++ (toLeBytes slot ++ (mt ++ ws)) := by
    simp [buildInstructionData, List.append_assoc]
  have hd8 : (buildInstructionData slot mt ws).drop 8 =
      toLeBytes slot ++ (mt ++ ws) := by
    rw [hassoc, List.drop_left' instructionDiscriminator_length]
  have hd16 : (buildInstructionData slot mt ws).drop 16 = mt ++ ws := by
    have : ((buildInstructionData slot mt ws).drop 8).drop 8 =
        (buildInstructionData slot mt ws).drop 16 := by
      rw [List.drop_drop]
    rw [← this, hd8, List.drop_left' (toLeBytes_length slot)]
  have hd48 : (buildInstructionData slot mt ws).drop 48 = ws := by
    have : ((buildInstructionData slot mt ws).drop 16).drop 32 =
        (buildInstructionData slot mt ws).drop 48 := by
      rw [List.drop_drop]
    rw [← this, hd16, List.drop_left' hmt]
  have ht8 : ((buildInstructionData slot mt ws).drop 8).take 8 =
      toLeBytes slot := by
    rw [hd8, List.take_left' (toLeBytes_length slot)]
  refine ⟨?_, ?_, ht8, ?_, ?_, hd48⟩
  · rw [hassoc]
    simp [toLeBytes_length, hmt, hws, instructionDiscriminator]
  · rw [hassoc, List.take_left' instructionDiscriminator_length]
  · rw [ht8]
    exact fromLeBytes_toLeBytes slot hslot
  · rw [hd16, List.take_left' hmt]

/-- C5 witness: the layout statement at slot 100, a tree root of 32 ones
and a state root of 32 zeros. -/
theorem buildInstructionData_layout_witness :
    (buildInstructionData 100 (List.replicate 32 1)
        (List.replicate 32 0)).length = 80 ∧
    (buildInstructionData 100 (List.replicate 32 1)
        (List.replicate 32 0)).take 8 = instructionDiscriminator ∧
    ((buildInstructionData 100 (List.replicate 32 1)
        (List.replicate 32 0)).drop 8).take 8 = toLeBytes 100 ∧
    fromLeBytes (((buildInstructionData 100 (List.replicate 32 1)
        (List.replicate 32 0)).drop 8).take 8) = 100 ∧
    ((buildInstructionData 100 (List.replicate 32 1)
        (List.replicate 32 0)).drop 16).take 32 = List.replicate 32 1 ∧
    (buildInstructionData 100 (List.replicate 32 1)
        (List.replicate 32 0)).drop 48 = List.replicate 32 0 :=
  buildInstructionData_layout 100 (List.replicate 32 1) (List.replicate 32 0)
    (by decide) (by decide) (by norm_num)

/-- The success path of the transaction builder: when the wallet loads,
both address parses succeed, the account read returns data of at least 40
bytes at some slot, and the blockhash fetch succeeds, the built
transaction is fully determined: one instruction for the parsed program,
the four account metas in their fixed order, the instruction data laid out
from the slot and the extracted roots, the wallet as payer and as the only
signer, and the fetched blockhash. -/
theorem builtTransaction_ok_eq (pda : PdaFn) (env : CycleEnv) (w : Keypair)
    (lc : Pubkey) (data : List Nat) (slot : Nat) (prog sa : Pubkey) (bh : Nat)
    (h1 : env.read_keypair = .ok w) (h2 : env.leafChunkParse = .ok lc)
    (h3 : env.accountResult = .ok (some data, slot)) (h4 : 40 ≤ data.length)
    (h5 : env.programIdParse = .ok prog) (h6 : env.slotsAccountParse = .ok sa)
    (h7 : env.blockhashResult = .ok bh) :
    builtTransaction pda env = CycleOutcome.ok
      ⟨[⟨prog,
         [AccountMeta.new sa false,
          AccountMeta.new_readonly system_program_id false,
          AccountMeta.new (derive pda slot prog) false,
          AccountMeta.new w.pub true],
         buildInstructionData slot ((data.drop 8).take 32)
           (List.replicate 32 0)⟩],
       some w.pub, [w.pub], bh⟩ := by
  simp [builtTransaction, load_wallet, h1, h2, h3, h5, h6, h7,
    extract_eq_of_length_ge data h4]

/-- C6: on the success path, every built instruction is addressed to
exactly four accounts in the fixed order — the configured destination
state account (mutable, non-signer), the system program (read-only,
non-signer), the derived address (mutable, non-signer) and the wallet
(mutable, signer) — and the transaction's sole signer is the wallet,
which is also its fee payer. -/
theorem transaction_accounts_and_signer (pda : PdaFn) (env : CycleEnv)
    (w : Keypair) (lc : Pubkey) (data : List Nat) (slot : Nat)
    (prog sa : Pubkey) (bh : Nat)
    (h1 : env.read_keypair = .ok w) (h2 : env.leafChunkParse = .ok lc)
    (h3 : env.accountResult = .ok (some data, slot)) (h4 : 40 ≤ data.length)
    (h5 : env.programIdParse = .ok prog) (h6 : env.slotsAccountParse = .ok sa)
    (h7 : env.blockhashResult = .ok bh) :
    builtTransaction pda env = CycleOutcome.ok
      ⟨[⟨prog,
         [⟨sa, false, true⟩,
          ⟨system_program_id, false, false⟩,
          ⟨derive pda slot prog, false, true⟩,
          ⟨w.pub, true, true⟩],
         buildInstructionData slot ((data.drop 8).take 32)
           (List.replicate 32 0)⟩],
       some w.pub, [w.pub], bh⟩ :=
  builtTransaction_ok_eq pda env w lc data slot prog sa bh
    h1 h2 h3 h4 h5 h6 h7

/-- C6 witness: the fixed four-account layout and sole wallet signer at
the concrete all-success environment. -/
theorem transaction_accounts_and_signer_witness :
    builtTransaction samplePda envOk = CycleOutcome.ok
      ⟨[⟨⟨List.replicate 32 2⟩,
         [⟨⟨List.replicate 32 3⟩, false, true⟩,
          ⟨system_program_id, false, false⟩,
          ⟨derive samplePda 100 ⟨List.replicate 32 2⟩, false, true⟩,
          ⟨sampleWallet.pub, true, true⟩],
         buildInstructionData 100 ((sampleData.drop 8).take 32)
           (List.replicate 32 0)⟩],
       some sampleWallet.pub, [sampleWallet.pub], 5⟩ :=
  transaction_accounts_and_signer samplePda envOk sampleWallet
    ⟨List.replicate 32 4⟩ sampleData 100 ⟨List.replicate 32 2⟩
    ⟨List.replicate 32 3⟩ 5 rfl rfl rfl (by decide) rfl rfl rfl

/-- The public key of the third account meta (the derived address) of a
successfully built single-instruction transaction. -/
def derivedAccountOf : CycleOutcome Transaction → Option Pubkey
  | .ok tx =>
    match tx.instructions with
    | [instr] =>
      match instr.accounts with
      | [_, _, m, _] => some m.pubkey
      | _ => none
    | _ => none
  | _ => none

/-- C9: the derived destination address placed in the built transaction is
a deterministic pure function of the fixed seed, the observed slot and the
destination program id: it equals `derive pda slot prog`, and two cycles
whose reads observe the same slot and whose configs name the same program
produce byte-identical derived addresses, whatever their wallets, account
bytes, slots accounts, blockhashes or send results are — so recomputing it
every cycle without persisted state is safe. -/
theorem derive_pure_of_slot_and_program (pda : PdaFn) (env1 env2 : CycleEnv)
    (w1 w2 : Keypair) (lc1 lc2 : Pubkey) (data1 data2 : List Nat)
    (slot : Nat) (prog sa1 sa2 : Pubkey) (bh1 bh2 : Nat)
    (h11 : env1.read_keypair = .ok w1) (h12 : env1.leafChunkParse = .ok lc1)
    (h13 : env1.accountResult = .ok (some data1, slot))
    (h14 : 40 ≤ data1.length)
    (h15 : env1.programIdParse = .ok prog)
    (h16 : env1.slotsAccountParse = .ok sa1)
    (h17 : env1.blockhashResult = .ok bh1)
    (h21 : env2.read_keypair = .ok w2) (h22 : env2.leafChunkParse = .ok lc2)
    (h23 : env2.accountResult = .ok (some data2, slot))
    (h24 : 40 ≤ data2.length)
    (h25 : env2.programIdParse = .ok prog)
    (h26 : env2.slotsAccountParse = .ok sa2)
    (h27 : env2.blockhashResult = .ok bh2) :
    derivedAccountOf (builtTransaction pda env1) =
      some (derive pda slot prog) ∧
    derivedAccountOf (builtTransaction pda env1) =
      derivedAccountOf (builtTransaction pda env2) := by
  rw [builtTransaction_ok_eq pda env1 w1 lc1 data1 slot prog sa1 bh1
        h11 h12 h13 h14 h15 h16 h17,
      builtTransaction_ok_eq pda env2 w2 lc2 data2 slot prog sa2 bh2
        h21 h22 h23 h24 h25 h26 h27]
  simp [derivedAccountOf, AccountMeta.new, AccountMeta.new_readonly]

/-- C9 witness: two concrete all-success environments observing slot 100
under the same program id but with different wallets, different account
bytes beyond offset 40, different slots accounts, blockhashes and send
results, yield the same derived address in their built transactions. -/
theorem derive_pure_of_slot_and_program_witness :
    derivedAccountOf (builtTransaction samplePda envOk) =
      some (derive samplePda 100 ⟨List.replicate 32 2⟩) ∧
    derivedAccountOf (builtTransaction samplePda envOk) =
      derivedAccountOf (builtTransaction samplePda envOk2) :=
  derive_pure_of_slot_and_program samplePda envOk envOk2 sampleWallet
    ⟨⟨List.replicate 32 8⟩⟩ ⟨List.replicate 32 4⟩ ⟨List.replicate 32 4⟩
    sampleData (sampleData ++ [9, 9]) 100 ⟨List.replicate 32 2⟩
    ⟨List.replicate 32 3⟩ ⟨List.replicate 32 6⟩ 5 6
    rfl rfl rfl (by decide) rfl rfl rfl
    rfl rfl rfl (by decide) rfl rfl rfl

/-- C7: `with_retry` invokes the operation at most 3 times; a success among
the first three attempts is returned with no further attempts made, and
when all 3 attempts fail the error of the third (last) attempt is
returned after exactly 3 attempts.  The returned triple records the
outcome, the attempts made and the sleeps performed. -/
theorem with_retry_attempts {α : Type} (f : Nat → Except String α) :
    (with_retry f).2.1 ≤ 3 ∧
    (∀ a, f 0 = .ok a → with_retry f = (.ok a, 1, 0)) ∧
    (∀ e0 a, f 0 = .error e0 → f 1 = .ok a →
      with_retry f = (.ok a, 2, 1)) ∧
    (∀ e0 e1 a, f 0 = .error e0 → f 1 = .error e1 → f 2 = .ok a →
      with_retry f = (.ok a, 3, 2)) ∧
    (∀ e0 e1 e2, f 0 = .error e0 → f 1 = .error e1 → f 2 = .error e2 →
      (with_retry f).1 = .err e2 ∧ (with_retry f).2.1 = 3) := by
  refine ⟨?_, ?_, ?_, ?_, ?_⟩
  · cases h0 : f 0 with
    | ok a => simp [with_retry, with_retryLoop, h0]
    | error e0 =>
      cases h1 : f 1 with
      | ok a => simp [with_retry, with_retryLoop, h0, h1]
      | error e1 =>
        cases h2 : f 2 with
        | ok a => simp [with_retry, with_retryLoop, h0, h1, h2]
        | error e2 => simp [with_retry, with_retryLoop, h0, h1, h2]
  · intro a h0
    simp [with_retry, with_retryLoop, h0]
  · intro e0 a h0 h1
    simp [with_retry, with_retryLoop, h0, h1]
  · intro e0 e1 a h0 h1 h2
    simp [with_retry, with_retryLoop, h0, h1, h2]
  · intro e0 e1 e2 h0 h1 h2
    simp [with_retry, with_retryLoop, h0, h1, h2]

/-- An operation that fails on its first call and succeeds afterwards. -/
def failsOnceOp : Nat → Except String Nat :=
  fun i => if i = 0 then .error "first failure" else .ok 7

/-- C7 witness: an operation failing once is retried and its success on
the second attempt is returned, after 2 attempts and 1 sleep. -/
theorem with_retry_attempts_witness :
    with_retry failsOnceOp = (.ok 7, 2, 1) :=
  (with_retry_attempts failsOnceOp).2.2.1 "first failure" 7 rfl rfl

/-- An operation that fails on every call. -/
def alwaysFailingOp : Nat → Except String Nat :=
  fun _ => .error "boom"

/-- C8 counterexample: for an always-failing operation `with_retry`
performs 3 one-second sleeps, not 2: the Rust loop sleeps after every
failed attempt, including the third and last one, before the final error
is returned. -/
theorem with_retry_three_sleeps :
    with_retry alwaysFailingOp = (.err "boom", 3, 3) ∧
    ((with_retry alwaysFailingOp).2.2 = 2 → False) := by
  constructor <;> decide

/-- C8 (amended): `with_retry` sleeps a fixed 1 second after every failed
attempt, including the final one: for an operation that fails twice then
succeeds, exactly 2 sleeps occur before the success is returned; for an
operation that always fails, exactly 3 sleeps occur before the final
error is returned. -/
theorem with_retry_sleep_after_every_failure {α : Type}
    (f : Nat → Except String α) :
    (∀ e0 e1 a, f 0 = .error e0 → f 1 = .error e1 → f 2 = .ok a →
      (with_retry f).2.2 = 2) ∧
    (∀ e0 e1 e2, f 0 = .error e0 → f 1 = .error e1 → f 2 = .error e2 →
      (with_retry f).2.2 = 3) := by
  constructor
  · intro e0 e1 a h0 h1 h2
    simp [with_retry, with_retryLoop, h0, h1, h2]
  · intro e0 e1 e2 h0 h1 h2
    simp [with_retry, with_retryLoop, h0, h1, h2]

/-- An operation that fails on its first two calls and succeeds afterwards. -/
def failsTwiceOp : Nat → Except String Nat :=
  fun i => if i < 2 then .error "early failure" else .ok 7

/-- C8 witness: the amended sleep counts at two concrete operations, one
failing twice then succeeding, one always failing. -/
theorem with_retry_sleep_after_every_failure_witness :
    (with_retry failsTwiceOp).2.2 = 2 ∧
    (with_retry alwaysFailingOp).2.2 = 3 :=
  ⟨(with_retry_sleep_after_every_failure failsTwiceOp).1
      "early failure" "early failure" 7 rfl rfl rfl,
   (with_retry_sleep_after_every_failure alwaysFailingOp).2
      "boom" "boom" "boom" rfl rfl rfl⟩

/-- C10: the final `last_error.unwrap()` of `with_retry` never panics: the
loop is entered with 3 retries, so it can only be left by returning a
success or after at least one failure has set `last_error`; for every
operation the result is a success or an error, never the unwrap panic. -/
theorem with_retry_never_unwrap_panics {α : Type}
    (f : Nat → Except String α) :
    (with_retry f).1.isPanic = false := by
  cases h0 : f 0 with
  | ok a => simp [with_retry, with_retryLoop, RetryOutcome.isPanic, h0]
  | error e0 =>
    cases h1 : f 1 with
    | ok a => simp [with_retry, with_retryLoop, RetryOutcome.isPanic, h0, h1]
    | error e1 =>
      cases h2 : f 2 with
      | ok a =>
        simp [with_retry, with_retryLoop, RetryOutcome.isPanic, h0, h1, h2]
      | error e2 =>
        simp [with_retry, with_retryLoop, RetryOutcome.isPanic, h0, h1, h2]

/-- C2 (amended): every error value produced by a cycle body is caught at
the top of the cycle by the scheduler loop, logged as an `Error:` line,
and swallowed, and the loop proceeds to the next tick; as long as no cycle
body panics, no cycle outcome terminates the loop — after any number of
ticks the process is still running.  (A panicking cycle body, by contrast,
aborts the process: see the counterexample.) -/
theorem errors_logged_and_swallowed (cycle : Nat → CycleOutcome Unit)
    (hnp : ∀ i, cycle i ≠ CycleOutcome.panicked) :
    (∀ fuel i log, ∃ log2,
      mainLoop cycle fuel i log = ProcessOutcome.running (log ++ log2)) ∧
    (∀ fuel i log e, cycle i = CycleOutcome.err e →
      mainLoop cycle (fuel + 1) i log =
        mainLoop cycle fuel (i + 1) (log ++ ["Error: " ++ e])) := by
  constructor
  · intro fuel
    induction fuel with
    | zero => intro i log; exact ⟨[], by simp [mainLoop]⟩
    | succ n ih =>
      intro i log
      cases h : cycle i with
      | ok a =>
        obtain ⟨l2, hl2⟩ := ih (i + 1) log
        exact ⟨l2, by simp [mainLoop, h, hl2]⟩
      | err e =>
        obtain ⟨l2, hl2⟩ := ih (i + 1) (log ++ ["Error: " ++ e])
        refine ⟨["Error: " ++ e] ++ l2, ?_⟩
        simp only [mainLoop, h, hl2, List.append_assoc]
      | panicked => exact absurd h (hnp i)
  · intro fuel i log e h
    simp [mainLoop, h]

/-- C2 witness: with a cycle body that always fails with a wallet error
(an error value, never a panic), the loop is still running after 4 ticks. -/
theorem errors_logged_and_swallowed_witness :
    ∃ log2,
      mainLoop (fun _ => check_and_submit samplePda envBadWallet) 4 0 [] =
        ProcessOutcome.running ([] ++ log2) :=
  (errors_logged_and_swallowed
      (fun _ => check_and_submit samplePda envBadWallet)
      (fun _ => by
        exact (by decide :
          check_and_submit samplePda envBadWallet ≠
            CycleOutcome.panicked))).1 4 0 []

end SolProposer
